import Mathlib

/-
Verification development for the SLZ book-reader repository.

Python strings are modelled as `List Char`.  Each definition below is a
shallow embedding of a function (or a handler fragment) of the source,
named after the source symbol where Lean allows it.  The file's theorems
settle the frozen claims about the capture/dedup/transcription/parsing/
resolution pipeline.
-/

namespace BookReader

abbrev Str := List Char

/-- Whitespace set used by Python's `str.strip()` / `\s` for the ASCII range. -/
def pyWhitespace (c : Char) : Bool :=
  c = ' ' || c = '\t' || c = '\n' || c = '\r' || c = '\x0b' || c = '\x0c'

/-- Python `str.strip()`: drop leading and trailing whitespace. -/
def pyStrip (s : Str) : Str :=
  ((s.dropWhile pyWhitespace).reverse.dropWhile pyWhitespace).reverse

/-- Line-break characters recognised by Python `str.splitlines()` (ASCII range). -/
def isLineBreak (c : Char) : Bool :=
  c = '\n' || c = '\r' || c = '\x0b' || c = '\x0c'

/-- Worker for `pySplitlines`; `acc` holds the current line reversed. -/
def pySplitlinesGo : Str → Str → List Str
  | [], acc => [acc.reverse]
  | '\r' :: '\n' :: rest, acc =>
      acc.reverse :: (if rest.isEmpty then [] else pySplitlinesGo rest [])
  | c :: rest, acc =>
      if isLineBreak c then
        acc.reverse :: (if rest.isEmpty then [] else pySplitlinesGo rest [])
      else
        pySplitlinesGo rest (c :: acc)

/-- Python `str.splitlines()` (no trailing empty line; `""` gives `[]`). -/
def pySplitlines (s : Str) : List Str :=
  match s with
  | [] => []
  | _ => pySplitlinesGo s []

/-- Python `"sep".join(parts)`. -/
def pyJoin (sep : Str) (parts : List Str) : Str :=
  List.intercalate sep parts

/-- Python `line.rstrip(":")`: drop trailing colon characters. -/
def rstripColons (s : Str) : Str :=
  (s.reverse.dropWhile (fun c => c = ':')).reverse

/-- From `_parse_quiz_text` (tk_gui.py lines 1112-1113): split into trimmed
lines and keep the non-empty ones. -/
def nonEmptyLines (text : Str) : List Str :=
  ((pySplitlines text).map pyStrip).filter (fun l => !l.isEmpty)

/-- Uppercase A-Z test, as matched by the character class `[A-Z]`. -/
def isUpperAZ (c : Char) : Bool := 'A' ≤ c && c ≤ 'Z'

/-- Python regex `^([A-Z])[\.\)]\s*(.*)$` applied with `re.match` to a line
that contains no line breaks: succeeds when the line starts with an
uppercase letter followed by `.` or `)`, returning the letter and the rest
of the line with leading whitespace removed (the `\s*` run). -/
def matchOptionPattern : Str → Option (Char × Str)
  | a :: b :: rest =>
      if isUpperAZ a && (b = '.' || b = ')') then
        some (a, rest.dropWhile pyWhitespace)
      else
        none
  | _ => none

/-- Python regex `^\d+[\).]?\s*(.*)$` applied with `re.match`: succeeds when
the line starts with at least one digit; consumes the digits, one optional
`)` or `.`, a whitespace run, and returns group 1 (the remainder). -/
def matchLeadingIndex (line : Str) : Option Str :=
  let ds := line.takeWhile Char.isDigit
  if ds.isEmpty then none
  else
    let rest := line.drop ds.length
    let rest :=
      match rest with
      | c :: t => if c = ')' || c = '.' then t else c :: t
      | [] => []
    some (rest.dropWhile pyWhitespace)

/-- Python `len(line) == 1 and line.isalpha()`. -/
def isSingleAlpha : Str → Bool
  | [c] => c.isAlpha
  | _ => false

/-- Fallback-grammar question (tk_gui.py lines 1127-1129):
`question = (m.group(1) if m and m.group(1) else first).strip()`. -/
def fallbackQuestion (first : Str) : Str :=
  match matchLeadingIndex first with
  | some g1 => if g1.isEmpty then pyStrip first else pyStrip g1
  | none => pyStrip first

/-- Fallback-grammar option loop (tk_gui.py lines 1131-1139): skip stray
single-letter lines, trim trailing colons and surrounding whitespace, and
keep only lines that are still non-empty. -/
def fallbackOptionsLoop : List Str → List Str
  | [] => []
  | line :: rest =>
      if isSingleAlpha line then fallbackOptionsLoop rest
      else
        let cleaned := pyStrip (rstripColons line)
        if cleaned.isEmpty then fallbackOptionsLoop rest
        else cleaned :: fallbackOptionsLoop rest

/-- Fallback grammar of `_parse_quiz_text` (tk_gui.py lines 1126-1145),
applied to the non-empty trimmed lines. -/
def fallbackParse : List Str → Str × List Str
  | [] => ([], [])
  | first :: rest =>
      let options := fallbackOptionsLoop rest
      let options := if 6 < options.length then options.take 6 else options
      (fallbackQuestion first, options)

/-- Loop state of the labeled grammar (tk_gui.py lines 1147-1150). -/
structure LabState where
  qLines : List Str
  opts : List Str
  cur : List Str
  inOpts : Bool
  deriving Repr, DecidableEq

/-- One iteration of the labeled-grammar loop (tk_gui.py lines 1152-1166). -/
def labStep (st : LabState) (line : Str) : LabState :=
  match matchOptionPattern line with
  | some (c, g2) =>
      if c = 'A' || c = 'B' || c = 'C' || c = 'D' || c = 'E' || c = 'F' then
        let opts :=
          if st.cur.isEmpty then st.opts
          else st.opts ++ [pyStrip (pyJoin [' '] st.cur)]
        let rest := pyStrip g2
        let cur := if rest.isEmpty then [] else [rest]
        ⟨st.qLines, opts, cur, true⟩
      else if st.inOpts then
        ⟨st.qLines, st.opts, st.cur ++ [line], st.inOpts⟩
      else
        ⟨st.qLines ++ [line], st.opts, st.cur, st.inOpts⟩
  | none =>
      if st.inOpts then
        ⟨st.qLines, st.opts, st.cur ++ [line], st.inOpts⟩
      else
        ⟨st.qLines ++ [line], st.opts, st.cur, st.inOpts⟩

/-- Labeled grammar of `_parse_quiz_text` (tk_gui.py lines 1147-1174). -/
def labeledParse (ne : List Str) : Str × List Str :=
  let st := ne.foldl labStep ⟨[], [], [], false⟩
  let opts :=
    if st.cur.isEmpty then st.opts
    else st.opts ++ [pyStrip (pyJoin [' '] st.cur)]
  let question := pyStrip (pyJoin [' '] st.qLines)
  (question, opts.filter (fun o => !o.isEmpty))

/-- Grammar probe of `_parse_quiz_text` (tk_gui.py line 1121):
`has_letter_options = any(option_pattern.match(line) for line in non_empty)`. -/
def hasLetterOptions (ne : List Str) : Bool :=
  ne.any (fun l => (matchOptionPattern l).isSome)

/-- `_parse_quiz_text` (tk_gui.py lines 1111-1174). -/
def parseQuizText (text : Str) : Str × List Str :=
  let ne := nonEmptyLines text
  if ne.isEmpty then ([], [])
  else if hasLetterOptions ne then labeledParse ne
  else fallbackParse ne

/-! ## Context assembly (`on_quiz`, tk_gui.py lines 1194-1204) -/

/-- Blank-line separator `"\n\n"`. -/
def blankSep : Str := ['\n', '\n']

/-- Context assembly step of `on_quiz` (tk_gui.py lines 1194-1198): when the
transcript list is truthy, join with `"\n\n"`, strip, and keep the trailing
4000 characters when longer than 4000; otherwise no context. -/
def assembleContext (pageTexts : List Str) : Option Str :=
  if pageTexts.isEmpty then none
  else
    let context := pyStrip (pyJoin blankSep pageTexts)
    if 4000 < context.length then some (context.drop (context.length - 4000))
    else some context

/-! ## Answer-letter extraction (`on_quiz`, tk_gui.py lines 1223-1229) -/

/-- Word character for Python's `\b` (ASCII range): letter, digit or `_`. -/
def isWordChar (c : Char) : Bool := c.isAlphanum || c = '_'

/-- Letter class `[A-F]`. -/
def isAF (c : Char) : Bool := 'A' ≤ c && c ≤ 'F'

/-- Python `re.search(r"\b([A-F])[\).]\b", s)`: scan left to right for a
position with a word boundary, a letter A-F, then `.` or `)`, then a word
boundary (which, after a non-word character, forces a following word
character).  `prevW` records whether the character before the current
suffix is a word character. -/
def searchPreferred : Bool → Str → Option Char
  | _, [] => none
  | _, [_] => none
  | _, [_, _] => none
  | prevW, a :: b :: c :: rest =>
      if !prevW && isAF a && (b = '.' || b = ')') && isWordChar c then some a
      else searchPreferred (isWordChar a) (b :: c :: rest)

/-- Python `re.search(r"\b([A-F])\b", s)`: scan for a standalone letter A-F
(word boundaries on both sides). -/
def searchStandalone : Bool → Str → Option Char
  | _, [] => none
  | prevW, a :: rest =>
      let boundAfter := match rest with | [] => true | b :: _ => !isWordChar b
      if !prevW && isAF a && boundAfter then some a
      else searchStandalone (isWordChar a) rest

/-- Letter-extraction step of `on_quiz` (tk_gui.py lines 1223-1229): first
regex, then the standalone fallback. -/
def extractChosenLetter (suggestion : Str) : Option Char :=
  match searchPreferred false suggestion with
  | some c => some c
  | none => searchStandalone false suggestion

/-- Resolved answer as surfaced by `on_quiz` (tk_gui.py lines 1223-1243): the
best-effort letter plus the raw model response (always logged verbatim on
line 1243). -/
def resolveAnswer (suggestion : Str) : Option Char × Str :=
  (extractChosenLetter suggestion, suggestion)

/-! ## Shared OCR reader (`_get_ocr_reader`, workflows.py lines 239-250) -/

/-- One call of `_get_ocr_reader`: `g` is the module global `_EASYOCR_READER`,
`constructResult` the outcome easyocr construction would have on this call
(`none` = the constructor raises).  Returns the new global together with
whether a construction was attempted.  Translated from workflows.py lines
242-250: construction is attempted exactly when the global is `None`, and a
failure stores `None` back. -/
def getOcrReaderStep {R : Type} (g : Option R) (constructResult : Option R) :
    Option R × Bool :=
  match g with
  | some r => (some r, false)
  | none => (constructResult, true)

/-- Run `n` successive calls of `_get_ocr_reader` in one process; `env k` is
the result construction would have on call `k`.  Returns the final global
and the total number of construction attempts. -/
def ocrReaderRun {R : Type} (env : Nat → Option R) : Nat → Option R × Nat
  | 0 => (none, 0)
  | n + 1 =>
      let p := ocrReaderRun env n
      let q := getOcrReaderStep p.1 (env n)
      (q.1, p.2 + (if q.2 then 1 else 0))

/-- Environment in which every easyocr construction attempt fails. -/
def alwaysFailEnv : Nat → Option Unit := fun _ => none

/-- Environment in which every easyocr construction attempt succeeds. -/
def alwaysOkEnv : Nat → Option Unit := fun _ => some ()

/-! ## Quiz transcription (`on_transcribe_quiz`, tk_gui.py lines 1078-1107) -/

/-- Result of `reader.readtext(...)`: raises, or returns a list whose items
may or may not be strings (`isinstance(line, str)` filters the latter).
`none` items model non-string entries. -/
inductive OcrOutcome where
  | raised : OcrOutcome
  | lines : List (Option Str) → OcrOutcome

/-- Text computed by `on_transcribe_quiz` (tk_gui.py lines 1078-1089):
`"\n".join(line.strip() for line in lines if isinstance(line, str)).strip()`,
with `""` when OCR raised. -/
def quizOcrText : OcrOutcome → Str
  | .raised => []
  | .lines ls => pyStrip (pyJoin ['\n'] ((ls.filterMap id).map pyStrip))

/-- Completion of a quiz transcription run (tk_gui.py lines 1091-1103):
stores the text in `quiz_text` and schedules `on_quiz` exactly when
`text.strip()` is truthy. -/
def onTranscribeQuizResult (ocr : OcrOutcome) : Str × Bool :=
  let text := quizOcrText ocr
  (text, !(pyStrip text).isEmpty)

/-! ## Quiz parse gate (`on_quiz`, tk_gui.py lines 1176-1192) -/

/-- Outcome of the parse stage of `on_quiz`. -/
inductive QuizParseOutcome where
  | noText : QuizParseOutcome
  | failure : Str → QuizParseOutcome
  | usable : Str → List Str → QuizParseOutcome
  deriving Repr, DecidableEq

/-- Parse stage of `on_quiz` (tk_gui.py lines 1176-1192): nothing when
`quiz_text` is falsy; a failure surfacing
`(self.quiz_text or "").strip() or "(no text detected)"` when the question
is empty or fewer than 2 options were produced; otherwise the usable
prompt. -/
def onQuizParseStage (quizText : Str) : QuizParseOutcome :=
  if quizText.isEmpty then .noText
  else
    let p := parseQuizText quizText
    if p.1.isEmpty || p.2.length < 2 then
      let d := pyStrip quizText
      .failure (if d.isEmpty then "(no text detected)".data else d)
    else .usable p.1 p.2

/-! ## Configuration (`config/settings.py`) -/

/-- `SLZConfig` (settings.py lines 10-12). -/
structure SLZConfig where
  base_url : Str
  deriving Repr, DecidableEq

/-- `AutomationConfig` (settings.py lines 15-21).  Seconds and counts are
kept as integers/naturals; `read_scroll_step_seconds` is a float in the
source and is modelled as an integer number of milliseconds, which no claim
depends on. -/
structure AutomationConfig where
  book_title : Str
  read_scroll_step_millis : Int
  read_total_seconds : Int
  max_quiz_questions : Int
  headless : Bool
  deriving Repr, DecidableEq

/-- `LLMConfig` (settings.py lines 24-29). -/
structure LLMConfig where
  provider : Str
  base_url : Str
  model : Str
  api_key : Str
  deriving Repr, DecidableEq

/-- `AppConfig` (settings.py lines 32-38).  These five fields are the whole
dataclass; in particular there is no `max_book_screenshots` field. -/
structure AppConfig where
  slz : SLZConfig
  automation : AutomationConfig
  llm : LLMConfig
  username : Str
  password : Str
  deriving Repr, DecidableEq

/-- Attribute names of the `AppConfig` dataclass (settings.py lines 32-38). -/
def appConfigFieldNames : List String :=
  ["slz", "automation", "llm", "username", "password"]

/-- Python exceptions distinguished by the embedding. -/
inductive PyExn where
  | attributeError : PyExn
  deriving Repr, DecidableEq

/-- Attribute access `self.config.max_book_screenshots` (tk_gui.py lines 617
and 642).  `AppConfig` declares only `slz`, `automation`, `llm`, `username`
and `password` (see `appConfigFieldNames`), so this lookup raises
`AttributeError` in Python. -/
def maxBookScreenshotsAttr (_c : AppConfig) : Except PyExn Nat :=
  .error .attributeError

/-- Demo configuration value used to evaluate the code at concrete inputs. -/
def cfgDemo : AppConfig :=
  ⟨⟨"https://slz.example".data⟩,
   ⟨"Book".data, 2000, 120, 20, false⟩,
   ⟨"openai".data, "https://api.example/v1".data, "gpt-4o-mini".data, "key".data⟩,
   "user".data, "pass".data⟩

/-! ## Easy-book clipboard watcher (`_poll_easy_book_clipboard`,
tk_gui.py lines 609-639, and `_image_signature`, lines 489-493)

Images and fingerprints are abstract: the poll is parametrised by a
signature function `sigf`, reflecting that `_image_signature` is a pure
function of the image pixels (same image, same signature). -/

/-- `deque(maxlen=200).append`: drop from the left once 200 entries are
held. -/
def dequeAppend200 (seen : List Nat) (x : Nat) : List Nat :=
  if 200 ≤ seen.length then (seen.drop (seen.length - 199)) ++ [x]
  else seen ++ [x]

/-- Watcher-relevant state of `TkApp` for BOOK mode. -/
structure BookWatchState where
  pageImages : List Nat
  seen : List Nat
  lastSig : Option Nat
  easyBookEnabled : Bool
  deriving Repr, DecidableEq

/-- Observable outcome of one poll tick. -/
inductive BookPollOutcome where
  | watcherOff : BookPollOutcome
  | noImage : BookPollOutcome
  | capacityReject : BookPollOutcome
  | accepted : BookPollOutcome
  | duplicate : BookPollOutcome
  deriving Repr, DecidableEq

/-- Body of `_poll_easy_book_clipboard` after the capacity test (tk_gui.py
lines 626-637), plus the capacity branch itself (lines 617-624) with the
ceiling passed in as `maxBook`.  Modelled from the spec: the source reads
the ceiling from `self.config.max_book_screenshots`, a field `AppConfig`
does not define (see `maxBookScreenshotsAttr`); the spec's configured
maximum is therefore supplied as a parameter here.  At capacity the watcher
flag is cleared and a notification emitted without touching the page list,
the history or the last-accepted signature; below capacity a fresh
signature (different from the last accepted one and absent from the
history) is accepted: recorded as last accepted, appended to the bounded
history, and the image appended to `page_images`.  Anything else is
discarded as a duplicate. -/
def pollEasyBookCore (sigf : Nat → Nat) (maxBook : Nat) (img : Nat)
    (s : BookWatchState) : BookWatchState × BookPollOutcome :=
  if maxBook ≤ s.pageImages.length then
    (⟨s.pageImages, s.seen, s.lastSig, false⟩, .capacityReject)
  else
    let sg := sigf img
    if some sg ≠ s.lastSig && !(s.seen.contains sg) then
      (⟨s.pageImages ++ [img], dequeAppend200 s.seen sg, some sg, s.easyBookEnabled⟩,
       .accepted)
    else (s, .duplicate)

/-- One tick of `_poll_easy_book_clipboard` with the ceiling as a parameter
(see `pollEasyBookCore`): nothing happens while the checkbox is off or the
clipboard holds no image. -/
def pollEasyBook (sigf : Nat → Nat) (maxBook : Nat) (clip : Option Nat)
    (s : BookWatchState) : BookWatchState × BookPollOutcome :=
  if !s.easyBookEnabled then (s, .watcherOff)
  else
    match clip with
    | none => (s, .noImage)
    | some img => pollEasyBookCore sigf maxBook img s

/-- One tick of `_poll_easy_book_clipboard` as actually written (tk_gui.py
lines 609-639): when an image is present, the capacity test evaluates
`self.config.max_book_screenshots`, whose lookup raises (see
`maxBookScreenshotsAttr`), so the tick errors before the signature is ever
computed. -/
def pollEasyBookActual (sigf : Nat → Nat) (c : AppConfig) (clip : Option Nat)
    (s : BookWatchState) : Except PyExn (BookWatchState × BookPollOutcome) :=
  if !s.easyBookEnabled then .ok (s, .watcherOff)
  else
    match clip with
    | none => .ok (s, .noImage)
    | some img =>
        (maxBookScreenshotsAttr c).bind
          (fun m => .ok (pollEasyBookCore sigf m img s))

/-- Fresh watcher state: no pages, empty history, watcher enabled. -/
def freshBookWatch : BookWatchState := ⟨[], [], none, true⟩

/-! ## Transcript-store interleaving model (tk_gui.py handlers)

State and events for the BOOK-mode transcript store.  `pageTexts` is
`self.page_texts`, `pageImages` is `self.page_images`, and
`bookTranscribing` is the `_book_transcribing` flag. -/

/-- Store-relevant state of `TkApp` for the BOOK pipeline. -/
structure BookStoreState where
  pageImages : List Nat
  pageTexts : List Str
  bookTranscribing : Bool
  deriving Repr, DecidableEq

/-- User events and background-run boundaries that touch the BOOK store. -/
inductive BookEvent where
  | pasteBook : Nat → BookEvent
  | deleteAt : Nat → BookEvent
  | clearBook : BookEvent
  | clearAll : BookEvent
  | startRead : BookEvent
  | finishRead : List Str → BookEvent

/-- One event of the BOOK store.

* `pasteBook` appends a page image.  Modelled from the spec: the source's
  capacity test in `on_paste_screenshot` (tk_gui.py line 642) consults the
  missing `max_book_screenshots` attribute (see `maxBookScreenshotsAttr`);
  the append itself (lines 649-662) is translated directly, for captures
  below the spec's ceiling.
* `deleteAt i` is `_delete_book_screenshots` (lines 432-456): bound-checked
  removal of the image, then `page_texts.clear()` whenever transcripts
  exist — with no `_book_transcribing` guard.
* `clearBook` is `on_clear_book_screenshots` (lines 664-687) and `clearAll`
  is `on_clear_all` (lines 689-718): both refuse while `_book_transcribing`
  is set.
* `startRead` is the entry of the `on_read` task (lines 956-987): a stop
  request while running, otherwise a run starts only when pages exist (the
  OCR reader is taken as available).
* `finishRead texts` is the completion of the `on_read` task (lines
  1025-1026): `self.page_texts = texts` followed by clearing the flag. -/
def bookStep (s : BookStoreState) : BookEvent → BookStoreState
  | .pasteBook img => ⟨s.pageImages ++ [img], s.pageTexts, s.bookTranscribing⟩
  | .deleteAt i =>
      if i < s.pageImages.length then
        ⟨s.pageImages.eraseIdx i, [], s.bookTranscribing⟩
      else s
  | .clearBook =>
      if s.bookTranscribing then s
      else if s.pageImages.isEmpty then s
      else ⟨[], [], s.bookTranscribing⟩
  | .clearAll =>
      if s.bookTranscribing then s
      else ⟨[], [], s.bookTranscribing⟩
  | .startRead =>
      if s.bookTranscribing then s
      else if s.pageImages.isEmpty then s
      else ⟨s.pageImages, s.pageTexts, true⟩
  | .finishRead texts =>
      if s.bookTranscribing then ⟨s.pageImages, texts, false⟩
      else s

/-- Run a sequence of events from the start state of `TkApp.__init__`. -/
def bookRun (events : List BookEvent) : BookStoreState :=
  events.foldl bookStep ⟨[], [], false⟩

/-! ## Claim-side definitions

Each definition below follows the words of a claim (not the source), for
comparison with the source-translated definition it is paired with. -/

/-- Claim C2's probe pattern `^[A-F][\.\)]\s*.*$`: the line starts with a
letter A-F followed by `.` or `)`. -/
def claimMatchesAF : Str → Bool
  | a :: b :: _ => isAF a && (b = '.' || b = ')')
  | _ => false

/-- Claim C2's grammar selection: labeled grammar exactly when some line
matches `claimMatchesAF`, positional fallback otherwise. -/
def claimC2Parse (text : Str) : Str × List Str :=
  let ne := nonEmptyLines text
  if ne.isEmpty then ([], [])
  else if ne.any claimMatchesAF then labeledParse ne
  else fallbackParse ne

/-- Claim C4's preferred search: a standalone letter A-F immediately
followed by `.` or `)` — with no requirement on what follows the
punctuation. -/
def claimSearchPreferred : Bool → Str → Option Char
  | _, [] => none
  | _, [_] => none
  | prevW, a :: b :: rest =>
      if !prevW && isAF a && (b = '.' || b = ')') then some a
      else claimSearchPreferred (isWordChar a) (b :: rest)

/-- Claim C4's extraction: prefer a letter immediately followed by `.` or
`)`, fall back to any standalone letter token. -/
def claimExtractLetter (s : Str) : Option Char :=
  match claimSearchPreferred false s with
  | some c => some c
  | none => searchStandalone false s

/-- Claim C5's assembly: none on an empty list, otherwise the blank-line
join itself, truncated to its trailing 4000 characters when longer. -/
def claimAssembleContext (pageTexts : List Str) : Option Str :=
  if pageTexts.isEmpty then none
  else
    let context := pyJoin blankSep pageTexts
    if 4000 < context.length then some (context.drop (context.length - 4000))
    else some context

/-- Claim C6's option rule: every candidate line except single-alphabetic
lines becomes an option with trailing colons trimmed; at most 6 options. -/
def claimC6Options (candidates : List Str) : List Str :=
  (((candidates.filter (fun l => !isSingleAlpha l)).map rstripColons).take 6)

/-- Claim C6's fallback parse: the first line with any leading numeric index
stripped is the question, the remaining lines feed `claimC6Options`. -/
def claimC6Parse : List Str → Str × List Str
  | [] => ([], [])
  | first :: rest =>
      let q := match matchLeadingIndex first with
               | some g1 => pyStrip g1
               | none => pyStrip first
      (q, claimC6Options rest)

/-- Amended C2 probe, written from the amended claim: the line starts with
an uppercase letter A-Z followed by `.` or `)` (pattern `^[A-Z][\.\)]\s*.*$`). -/
def claimMatchesAZ : Str → Bool
  | a :: b :: _ => isUpperAZ a && (b = '.' || b = ')')
  | _ => false

/-- Amended C6 option rule, written from the amended claim: a candidate line
is discarded when it is a single alphabetic character or trims to nothing;
otherwise its trailing colons and surrounding whitespace are removed. -/
def cleanOption (l : Str) : Option Str :=
  if isSingleAlpha l then none
  else
    let c := pyStrip (rstripColons l)
    if c.isEmpty then none else some c

/-- Suffixes of a string paired with whether the character just before each
suffix is a word character (`false` for the whole string). -/
def scanPairs (prevW : Bool) : Str → List (Bool × Str)
  | [] => []
  | a :: rest => (prevW, a :: rest) :: scanPairs (isWordChar a) rest

/-- Amended C4 preferred hit at one position: a word boundary, a letter A-F,
`.` or `)`, then a word character. -/
def prefHit : Bool × Str → Option Char
  | (prevW, a :: b :: c :: _) =>
      if !prevW && isAF a && (b = '.' || b = ')') && isWordChar c then some a
      else none
  | _ => none

/-- Amended C4 standalone hit at one position: a letter A-F with word
boundaries on both sides. -/
def standaloneHit : Bool × Str → Option Char
  | (prevW, a :: rest) =>
      let boundAfter := match rest with | [] => true | b :: _ => !isWordChar b
      if !prevW && isAF a && boundAfter then some a else none
  | (_, []) => none

/-- Amended C4 extraction, written from the amended claim: the leftmost
preferred hit, else the leftmost standalone letter, else nothing. -/
def specExtractLetter (s : Str) : Option Char :=
  match (scanPairs false s).findSome? prefHit with
  | some c => some c
  | none => (scanPairs false s).findSome? standaloneHit

/-! ## Helper lemmas -/

/-- Head of a `dropWhile` result never satisfies the dropped predicate. -/
theorem head?_dropWhile_false (p : Char → Bool) :
    ∀ l : Str, ∀ a ∈ (l.dropWhile p).head?, p a = false := by
  intro l
  induction l with
  | nil => intro a h; simp at h
  | cons x t ih =>
      intro a h
      by_cases hx : p x
      · rw [List.dropWhile_cons_of_pos hx] at h
        exact ih a h
      · rw [List.dropWhile_cons_of_neg hx] at h
        simp at h
        rw [h] at hx
        simpa using hx

/-- `dropWhile` leaves a list alone when its head fails the predicate. -/
theorem dropWhile_eq_self_of (p : Char → Bool) (l : Str)
    (h : ∀ a ∈ l.head?, p a = false) : l.dropWhile p = l := by
  cases l with
  | nil => rfl
  | cons x t =>
      have hx : p x = false := h x (by simp)
      simp [List.dropWhile_cons, hx]

/-- `dropWhile` keeps the last element whenever its result is non-empty. -/
theorem getLast?_dropWhile (p : Char → Bool) :
    ∀ l : Str, (l.dropWhile p).getLast? = l.getLast? ∨ l.dropWhile p = [] := by
  intro l
  induction l with
  | nil => right; rfl
  | cons x t ih =>
      by_cases hx : p x
      · rw [List.dropWhile_cons_of_pos hx]
        cases t with
        | nil => right; rfl
        | cons y t2 =>
            rcases ih with h | h
            · left; rw [h, List.getLast?_cons_cons]
            · right; exact h
      · left; rw [List.dropWhile_cons_of_neg hx]

/-- Condition "no leading whitespace". -/
def noLeadWs (l : Str) : Prop := ∀ a ∈ l.head?, pyWhitespace a = false

/-- Condition "no trailing whitespace". -/
def noTrailWs (l : Str) : Prop := ∀ a ∈ l.reverse.head?, pyWhitespace a = false

/-- Stripping a string with clean ends changes nothing. -/
theorem pyStrip_eq_self (l : Str) (h1 : noLeadWs l) (h2 : noTrailWs l) :
    pyStrip l = l := by
  unfold pyStrip
  rw [dropWhile_eq_self_of pyWhitespace l h1]
  rw [dropWhile_eq_self_of pyWhitespace l.reverse h2]
  exact List.reverse_reverse l

/-- Strip results have no leading whitespace. -/
theorem noLeadWs_pyStrip (s : Str) : noLeadWs (pyStrip s) := by
  intro a ha
  unfold pyStrip at ha
  rw [List.head?_reverse] at ha
  rcases getLast?_dropWhile pyWhitespace ((s.dropWhile pyWhitespace).reverse) with h | h
  · rw [h, List.getLast?_reverse] at ha
    exact head?_dropWhile_false pyWhitespace s a ha
  · rw [h] at ha
    simp at ha

/-- Strip results have no trailing whitespace. -/
theorem noTrailWs_pyStrip (s : Str) : noTrailWs (pyStrip s) := by
  intro a ha
  unfold pyStrip at ha
  rw [List.reverse_reverse] at ha
  exact head?_dropWhile_false pyWhitespace (s.dropWhile pyWhitespace).reverse a ha

/-- Python's `strip` is idempotent. -/
theorem pyStrip_idem (s : Str) : pyStrip (pyStrip s) = pyStrip s :=
  pyStrip_eq_self (pyStrip s) (noLeadWs_pyStrip s) (noTrailWs_pyStrip s)

/-- The fallback-grammar option loop is the `cleanOption` filter. -/
theorem fallbackOptionsLoop_eq_filterMap :
    ∀ ls : List Str, fallbackOptionsLoop ls = ls.filterMap cleanOption := by
  intro ls
  induction ls with
  | nil => rfl
  | cons line rest ih =>
      by_cases h1 : isSingleAlpha line
      · simp [fallbackOptionsLoop, cleanOption, h1, ih]
      · by_cases h2 : (pyStrip (rstripColons line)).isEmpty
        · simp [fallbackOptionsLoop, cleanOption, h1, h2, ih]
        · simp [fallbackOptionsLoop, cleanOption, h1, h2, ih]

/-- The grammar probe succeeds exactly on lines matching the `[A-Z]`
pattern. -/
theorem matchOptionPattern_isSome (l : Str) :
    (matchOptionPattern l).isSome = claimMatchesAZ l := by
  match l with
  | [] => rfl
  | [_] => rfl
  | a :: b :: rest =>
      by_cases h : isUpperAZ a && (b = '.' || b = ')')
      · simp [matchOptionPattern, claimMatchesAZ, h]
      · simp [matchOptionPattern, claimMatchesAZ, h]

/-- The left-to-right regex scan for `\b([A-F])[\).]\b` is the leftmost
`prefHit` over position-context pairs. -/
theorem searchPreferred_eq_findSome :
    ∀ (s : Str) (prevW : Bool),
      searchPreferred prevW s = (scanPairs prevW s).findSome? prefHit := by
  intro s
  induction s with
  | nil => intro _; rfl
  | cons a rest ih =>
      intro prevW
      match rest with
      | [] => rfl
      | [b] => rfl
      | b :: c :: r =>
          by_cases h : (!prevW && isAF a && (b = '.' || b = ')') && isWordChar c)
          · simp [searchPreferred, scanPairs, List.findSome?_cons, prefHit, h]
          · simp only [searchPreferred, scanPairs, List.findSome?_cons, prefHit,
              h, if_false, Bool.false_eq_true]
            exact ih (isWordChar a)

/-- The left-to-right regex scan for `\b([A-F])\b` is the leftmost
`standaloneHit` over position-context pairs. -/
theorem searchStandalone_eq_findSome :
    ∀ (s : Str) (prevW : Bool),
      searchStandalone prevW s = (scanPairs prevW s).findSome? standaloneHit := by
  intro s
  induction s with
  | nil => intro _; rfl
  | cons a rest ih =>
      intro prevW
      match rest with
      | [] =>
          by_cases h : (!prevW && isAF a && true)
          · simp [searchStandalone, scanPairs, List.findSome?_cons, standaloneHit, h]
          · simp [searchStandalone, scanPairs, List.findSome?_cons, standaloneHit, h]
      | b :: r =>
          by_cases h : (!prevW && isAF a && !isWordChar b)
          · simp [searchStandalone, scanPairs, List.findSome?_cons, standaloneHit, h]
          · simp only [searchStandalone, scanPairs, List.findSome?_cons, standaloneHit,
              h, if_false, Bool.false_eq_true]
            exact ih (isWordChar a)

/-! ## Claim theorems -/

/-- Claim C1 (code bug).  The claim says that once the stored BOOK page
count reaches the configured maximum a further clipboard capture is
rejected without consuming a history slot, the watcher disables itself and
a notification is emitted.  The code has no configured maximum:
`AppConfig` (settings.py lines 32-38) declares no `max_book_screenshots`
field, so the capacity test of `_poll_easy_book_clipboard` (tk_gui.py line
617) raises `AttributeError` whenever an image is present, and neither the
rejection path nor any other part of the tick completes.  The third
conjunct shows the code's own rejection logic, run with the spec's ceiling
supplied (here 2, with 2 pages stored), does behave as the claim says:
pages, history and last-accepted signature untouched, watcher disabled,
notification emitted. -/
theorem claim1_capacity_check_raises :
    "max_book_screenshots" ∉ appConfigFieldNames
    ∧ pollEasyBookActual id cfgDemo (some 5) ⟨[1, 2], [10, 20], some 20, true⟩ =
        .error .attributeError
    ∧ pollEasyBookCore id 2 5 ⟨[1, 2], [10, 20], some 20, true⟩ =
        (⟨[1, 2], [10, 20], some 20, false⟩, .capacityReject) :=
  ⟨by decide, rfl, by decide⟩

/-- Claim C8 (code bug).  The claim says presenting the same image on two
consecutive polls yields exactly one accepted delivery.  In the code the
capacity test runs before the signature is computed and raises
`AttributeError` (no `max_book_screenshots` field on `AppConfig`), so a
poll with an image present never accepts anything (first conjunct).  The
remaining conjuncts show the dedup logic behind the broken test, run with
the spec's ceiling supplied, matches the claim: the first poll accepts the
image, records the signature as last accepted and in the bounded history,
and the second poll with the same image discards it as a duplicate, state
unchanged. -/
theorem claim8_poll_raises_before_dedup :
    pollEasyBookActual id cfgDemo (some 7) freshBookWatch = .error .attributeError
    ∧ pollEasyBook id 24 (some 7) freshBookWatch =
        (⟨[7], [7], some 7, true⟩, .accepted)
    ∧ (⟨[7], [7], some 7, true⟩ : BookWatchState).lastSig = some 7
    ∧ [7].contains 7 = true
    ∧ pollEasyBook id 24 (some 7) ⟨[7], [7], some 7, true⟩ =
        (⟨[7], [7], some 7, true⟩, .duplicate) :=
  ⟨rfl, by decide, by decide, by decide, by decide⟩

/-- Claim C9 (code bug).  The claim says the transcript store is never
mutated while a BOOK-mode transcription run is in flight.  The clear
handlers check `_book_transcribing`, but `_delete_book_screenshots`
(tk_gui.py lines 432-456) does not: after two pages are captured,
transcribed, and a second run is started, the state has
`bookTranscribing = true` with a non-empty transcript store, and a
thumbnail-delete event clears `page_texts` immediately, mutating the store
while the run is still in flight. -/
theorem claim9_delete_during_run :
    bookRun [.pasteBook 1, .pasteBook 2, .startRead, .finishRead [['t']],
        .startRead] = ⟨[1, 2], [['t']], true⟩
    ∧ bookStep ⟨[1, 2], [['t']], true⟩ (.deleteAt 0) = ⟨[2], [], true⟩ :=
  ⟨by decide, by decide⟩

/-- Claim C2 counterexample.  On `"What\nX) foo\nY) bar"` no line matches
the claim's pattern `^[A-F][\.\)]\s*.*$`, yet the code's probe (pattern
`^([A-Z])[\.\)]\s*(.*)$`, tk_gui.py line 1118) fires on `"X) foo"`, so the
labeled grammar is selected; the claim predicts the positional fallback,
and the two parses differ observably. -/
theorem claim2_counterexample :
    hasLetterOptions (nonEmptyLines "What\nX) foo\nY) bar".data) = true
    ∧ (¬ ∃ l ∈ nonEmptyLines "What\nX) foo\nY) bar".data, claimMatchesAF l = true)
    ∧ parseQuizText "What\nX) foo\nY) bar".data = ("What X) foo Y) bar".data, [])
    ∧ claimC2Parse "What\nX) foo\nY) bar".data =
        ("What".data, ["X) foo".data, "Y) bar".data])
    ∧ parseQuizText "What\nX) foo\nY) bar".data ≠
        claimC2Parse "What\nX) foo\nY) bar".data := by
  refine ⟨by decide, by decide, by decide, by decide, by decide⟩

/-- Claim C4 counterexample.  On `"A and B) ok"` the claim's rule (prefer a
letter immediately followed by `.` or `)`) picks `B`, but the code's first
regex `\b([A-F])[\).]\b` also demands a word character after the
punctuation, fails here, and the standalone fallback returns `A`. -/
theorem claim4_counterexample :
    extractChosenLetter "A and B) ok".data = some 'A'
    ∧ claimExtractLetter "A and B) ok".data = some 'B'
    ∧ extractChosenLetter "A and B) ok".data ≠
        claimExtractLetter "A and B) ok".data := by
  refine ⟨by decide, by decide, by decide⟩

/-- Claim C5 counterexample.  With transcripts `["", "x"]` the blank-line
join is `"\n\nx"`; the claim says the context is that join (length 3, no
truncation), but `on_quiz` (tk_gui.py line 1195) strips the join first and
yields `"x"`. -/
theorem claim5_counterexample :
    assembleContext [[], ['x']] = some ['x']
    ∧ claimAssembleContext [[], ['x']] = some ['\n', '\n', 'x']
    ∧ assembleContext [[], ['x']] ≠ claimAssembleContext [[], ['x']] := by
  refine ⟨by decide, by decide, by decide⟩

/-- Claim C6 counterexample.  On `"Q\n:\nRed\nBlue"` the claim says every
subsequent non-empty line except single-alphabetic ones becomes an option
(so `":"`, trimmed of its colon, yields the empty option), but the code
(tk_gui.py lines 1137-1139) drops candidates that are empty after
trimming, producing only `["Red", "Blue"]`. -/
theorem claim6_counterexample :
    parseQuizText "Q\n:\nRed\nBlue".data = ("Q".data, ["Red".data, "Blue".data])
    ∧ claimC6Parse (nonEmptyLines "Q\n:\nRed\nBlue".data) =
        ("Q".data, [[], "Red".data, "Blue".data])
    ∧ (parseQuizText "Q\n:\nRed\nBlue".data).2 ≠
        (claimC6Parse (nonEmptyLines "Q\n:\nRed\nBlue".data)).2 := by
  refine ⟨by decide, by decide, by decide⟩

/-- Claim C3 counterexample.  With every easyocr construction failing, the
first call attempts construction and leaves the reader unavailable, and
the second call attempts construction again (2 attempts in total),
refuting "after the first failed construction, every subsequent call
reports the reader as unavailable without attempting construction
again". -/
theorem claim3_counterexample :
    (ocrReaderRun alwaysFailEnv 1).1 = none
    ∧ (ocrReaderRun alwaysFailEnv 1).2 = 1
    ∧ (ocrReaderRun alwaysFailEnv 2).2 = 2 := by
  refine ⟨by decide, by decide, by decide⟩

/-- Claim C2 (amended).  The quiz parser uses the labeled-option grammar if
and only if at least one non-empty trimmed line matches
`^[A-Z][\.\)]\s*.*$` — any uppercase letter, not only A-F; when no line
matches that pattern it uses the positional fallback grammar. -/
theorem claim2_grammar_selection (text : Str) :
    (hasLetterOptions (nonEmptyLines text) = true ↔
      ∃ l ∈ nonEmptyLines text, claimMatchesAZ l = true)
    ∧ (hasLetterOptions (nonEmptyLines text) = true →
        parseQuizText text = labeledParse (nonEmptyLines text))
    ∧ (hasLetterOptions (nonEmptyLines text) = false →
        nonEmptyLines text ≠ [] →
        parseQuizText text = fallbackParse (nonEmptyLines text)) := by
  refine ⟨?_, ?_, ?_⟩
  · unfold hasLetterOptions
    rw [List.any_eq_true]
    constructor
    · rintro ⟨l, hl, hsome⟩
      exact ⟨l, hl, by rw [← matchOptionPattern_isSome]; exact hsome⟩
    · rintro ⟨l, hl, h⟩
      exact ⟨l, hl, by rw [matchOptionPattern_isSome]; exact h⟩
  · intro h
    have hni : (nonEmptyLines text).isEmpty = false := by
      cases hc : nonEmptyLines text with
      | nil => rw [hc] at h; simp [hasLetterOptions] at h
      | cons a t => rfl
    simp [parseQuizText, hni, h]
  · intro h hne
    have hni : (nonEmptyLines text).isEmpty = false := by
      cases hc : nonEmptyLines text with
      | nil => exact absurd hc hne
      | cons a t => rfl
    simp [parseQuizText, hni, h]

/-- Claim C2 witness: the amended selection evaluated on concrete inputs
(one labeled, one fallback). -/
theorem claim2_grammar_selection_witness :
    parseQuizText "A. x\nB. y".data = labeledParse (nonEmptyLines "A. x\nB. y".data)
    ∧ parseQuizText "Pick\nRed\nBlue".data =
        fallbackParse (nonEmptyLines "Pick\nRed\nBlue".data) :=
  ⟨(claim2_grammar_selection "A. x\nB. y".data).2.1 (by decide),
   (claim2_grammar_selection "Pick\nRed\nBlue".data).2.2 (by decide) (by decide)⟩

/-- Claim C3 (amended).  The shared OCR reader is successfully constructed
at most once: a call that finds the reader cached returns it with no new
construction attempt; but a construction failure is not sticky — when the
reader is still unavailable the next call attempts construction again (and
takes whatever that attempt yields). -/
theorem claim3_construction_caching {R : Type} (env : Nat → Option R) (n : Nat) :
    ((ocrReaderRun env n).1 = none →
      (ocrReaderRun env (n + 1)).2 = (ocrReaderRun env n).2 + 1
      ∧ (ocrReaderRun env (n + 1)).1 = env n)
    ∧ (∀ r : R, (ocrReaderRun env n).1 = some r →
        (ocrReaderRun env (n + 1)).1 = some r
        ∧ (ocrReaderRun env (n + 1)).2 = (ocrReaderRun env n).2) := by
  constructor
  · intro h
    constructor <;> simp [ocrReaderRun, getOcrReaderStep, h]
  · intro r h
    constructor <;> simp [ocrReaderRun, getOcrReaderStep, h]

/-- Claim C3 witness: one retrying call after a failure, one cached call
after a success. -/
theorem claim3_construction_caching_witness :
    ((ocrReaderRun alwaysFailEnv 1).2 = (ocrReaderRun alwaysFailEnv 0).2 + 1
      ∧ (ocrReaderRun alwaysFailEnv 1).1 = alwaysFailEnv 0)
    ∧ ((ocrReaderRun alwaysOkEnv 2).1 = some ()
      ∧ (ocrReaderRun alwaysOkEnv 2).2 = (ocrReaderRun alwaysOkEnv 1).2) :=
  ⟨(claim3_construction_caching alwaysFailEnv 0).1 rfl,
   (claim3_construction_caching alwaysOkEnv 1).2 () rfl⟩

/-- Claim C4 (amended).  Letter extraction searches the response for a
standalone letter A-F, preferring a letter immediately followed by `.` or
`)` and then a word character (letter, digit or underscore — the trailing
word boundary of the regex), falling back to any standalone letter token,
and yields no letter when none is found while the raw response is still
surfaced; `"B) Four is correct"` yields letter B (via the standalone
fallback, since `") "` has no trailing word character) and
`"I think it's four"` yields no letter with the raw text preserved. -/
theorem claim4_letter_extraction (s : Str) :
    extractChosenLetter s = specExtractLetter s
    ∧ resolveAnswer s = (specExtractLetter s, s)
    ∧ resolveAnswer "B) Four is correct".data = (some 'B', "B) Four is correct".data)
    ∧ resolveAnswer "I think it's four".data = (none, "I think it's four".data) := by
  have he : extractChosenLetter s = specExtractLetter s := by
    unfold extractChosenLetter specExtractLetter
    rw [searchPreferred_eq_findSome, searchStandalone_eq_findSome]
  exact ⟨he, by simp [resolveAnswer, he], by decide, by decide⟩

/-- Claim C5 (amended).  Context assembly yields no context when the
transcript list is empty; otherwise it joins all page transcripts in index
order with a blank-line separator and strips surrounding whitespace, and
whenever the stripped join exceeds 4000 characters it keeps exactly its
trailing 4000 characters. -/
theorem claim5_context_assembly (ts : List Str) :
    (ts = [] → assembleContext ts = none)
    ∧ (ts ≠ [] →
        (pyStrip (pyJoin blankSep ts)).length ≤ 4000 →
          assembleContext ts = some (pyStrip (pyJoin blankSep ts)))
    ∧ (ts ≠ [] → 4000 < (pyStrip (pyJoin blankSep ts)).length →
        ∃ c p, assembleContext ts = some c
          ∧ pyStrip (pyJoin blankSep ts) = p ++ c
          ∧ c.length = 4000) := by
  refine ⟨?_, ?_, ?_⟩
  · intro h
    simp [assembleContext, h]
  · intro hne hle
    have hni : ts.isEmpty = false := by
      cases ts with
      | nil => exact absurd rfl hne
      | cons a t => rfl
    simp [assembleContext, hni, Nat.not_lt.mpr hle]
  · intro hne hlt
    have hni : ts.isEmpty = false := by
      cases ts with
      | nil => exact absurd rfl hne
      | cons a t => rfl
    refine ⟨(pyStrip (pyJoin blankSep ts)).drop
        ((pyStrip (pyJoin blankSep ts)).length - 4000),
      (pyStrip (pyJoin blankSep ts)).take
        ((pyStrip (pyJoin blankSep ts)).length - 4000), ?_, ?_, ?_⟩
    · simp [assembleContext, hni, hlt]
    · exact (List.take_append_drop _ _).symm
    · rw [List.length_drop]
      omega

/-- Claim C5 witness: the empty-list branch and a short join evaluated
concretely. -/
theorem claim5_context_assembly_witness :
    assembleContext [] = none
    ∧ assembleContext [['a']] = some (pyStrip (pyJoin blankSep [['a']])) :=
  ⟨(claim5_context_assembly []).1 rfl,
   (claim5_context_assembly [['a']]).2.1 (by decide) (by decide)⟩

/-- Claim C6 (amended).  In the positional fallback grammar the question is
the first non-empty line with any leading numeric index stripped, except
that a line whose remainder after the index is empty is kept whole; every
subsequent non-empty line becomes an option after trailing colons and
surrounding whitespace are trimmed, except single-alphabetic-character
lines and lines that trim to nothing, which are discarded; at most 6
options are produced.  `"1) Pick the color\nRed\nBlue\nGreen"` yields
question `"Pick the color"` and options `["Red", "Blue", "Green"]`. -/
theorem claim6_fallback_grammar :
    (∀ first rest, fallbackParse (first :: rest) =
        (fallbackQuestion first, (rest.filterMap cleanOption).take 6))
    ∧ parseQuizText "1) Pick the color\nRed\nBlue\nGreen".data =
        ("Pick the color".data, ["Red".data, "Blue".data, "Green".data])
    ∧ parseQuizText "1)\nRed\nBlue".data = ("1)".data, ["Red".data, "Blue".data]) := by
  refine ⟨?_, by decide, by decide⟩
  intro first rest
  show (let options := fallbackOptionsLoop rest
        let options := if 6 < options.length then List.take 6 options else options
        (fallbackQuestion first, options)) =
      (fallbackQuestion first, List.take 6 (List.filterMap cleanOption rest))
  simp only [fallbackOptionsLoop_eq_filterMap]
  by_cases h : 6 < (rest.filterMap cleanOption).length
  · simp [h]
  · simp [h, List.take_of_length_le (Nat.le_of_not_lt h)]

/-- Claim C7 (confirmed).  The quiz parser is a total function (it returns
on every input string by construction), a parsed prompt is usable exactly
when the question is non-empty and at least 2 options were produced, and
otherwise the parse is reported as a failure surfacing the raw OCR text
unchanged (the stored quiz text is always pre-stripped and the gate only
runs on non-empty text, so the display transformation
`(text or "").strip() or "(no text detected)"` is the identity there). -/
theorem claim7_parse_gate (t : Str) (h1 : t ≠ []) (h2 : pyStrip t = t) :
    ((parseQuizText t).1 = [] ∨ (parseQuizText t).2.length < 2 →
        onQuizParseStage t = .failure t)
    ∧ ((parseQuizText t).1 ≠ [] → 2 ≤ (parseQuizText t).2.length →
        onQuizParseStage t = .usable (parseQuizText t).1 (parseQuizText t).2) := by
  have hni : t.isEmpty = false := by
    cases t with
    | nil => exact absurd rfl h1
    | cons a b => rfl
  constructor
  · intro h
    have hcond : ((parseQuizText t).1.isEmpty
        || decide ((parseQuizText t).2.length < 2)) = true := by
      rcases h with h | h
      · simp [h]
      · simp [h]
    simp [onQuizParseStage, hni, hcond, h2]
  · intro hq hlen
    have hq' : (parseQuizText t).1.isEmpty = false := by
      cases hp : (parseQuizText t).1 with
      | nil => exact absurd hp hq
      | cons a b => rfl
    have hcond : ((parseQuizText t).1.isEmpty
        || decide ((parseQuizText t).2.length < 2)) = false := by
      simp [hq', Nat.not_lt.mpr hlen]
    simp [onQuizParseStage, hni, hcond]

/-- Claim C7 witness: a single-line input parses to zero options, is
unusable, and its raw text is surfaced unchanged. -/
theorem claim7_parse_gate_witness :
    onQuizParseStage "hello".data = .failure "hello".data :=
  (claim7_parse_gate "hello".data (by decide) (by decide)).1 (by decide)

/-- Claim C10 (confirmed).  When a quiz transcription run produces OCR
output that is empty after trimming, the stored quiz text is the empty
string and answer resolution is not scheduled; answer resolution is
scheduled exactly when the trimmed output is non-empty.  (The stored text
is itself a stripped join, so trimming it is the identity.) -/
theorem claim10_empty_quiz_ocr (ocr : OcrOutcome) :
    (pyStrip (onTranscribeQuizResult ocr).1 = [] →
      (onTranscribeQuizResult ocr).1 = [] ∧ (onTranscribeQuizResult ocr).2 = false)
    ∧ ((onTranscribeQuizResult ocr).2 = true ↔
        pyStrip (onTranscribeQuizResult ocr).1 ≠ []) := by
  have hself : pyStrip (quizOcrText ocr) = quizOcrText ocr := by
    cases ocr with
    | raised => rfl
    | lines ls => exact pyStrip_idem _
  have h1 : (onTranscribeQuizResult ocr).1 = quizOcrText ocr := rfl
  have h2 : (onTranscribeQuizResult ocr).2
      = !(pyStrip (quizOcrText ocr)).isEmpty := rfl
  constructor
  · intro h
    rw [h1] at h ⊢
    refine ⟨hself ▸ h, ?_⟩
    rw [h2, h]
    rfl
  · rw [h1, h2]
    cases hc : pyStrip (quizOcrText ocr) with
    | nil => simp
    | cons a b => simp

/-- Claim C10 witness: whitespace-only OCR output stores the empty string
and does not schedule answer resolution. -/
theorem claim10_empty_quiz_ocr_witness :
    (onTranscribeQuizResult (.lines [some [' ']])).1 = []
    ∧ (onTranscribeQuizResult (.lines [some [' ']])).2 = false :=
  (claim10_empty_quiz_ocr (.lines [some [' ']])).1 (by decide)

end BookReader
